import Mathlib

/-!
Shallow embedding of the session-and-trust subsystem of
`src/task-5-security/security_service.py` (class `SecurityService` and the
Flask route handlers `login`, `logout`, `validate_session`, `threat_scan`,
`get_audit_events`), together with theorems settling the frozen claims.

Modelling conventions:
* Python `dict` becomes an association list `List (String × α)` with
  lookup / in-place update / delete helpers mirroring `d[k]`, `d[k] = v`,
  `del d[k]` and `k in d`.
* Timestamps (`datetime.now().isoformat()` etc.) become `Nat` values; the
  clock is an external collaborator, so `now` is passed as a parameter.
* `secrets.token_hex` is an external random source, so the fresh token is
  passed as a parameter `newId`.
* `request.remote_addr` / `User-Agent` become an explicit `RequestCtx`.
* `str(request_data)` (the serialised payload inspected by
  `detect_threats`) becomes the `String` input of `detect_threats`.
* Python exceptions (`raise ValueError`) become `Except` results.
-/

/-- Lookup in a Python-style dict modelled as an association list
(`d[k]` / `k in d`: `some` iff the key is present). -/
def dget? {α : Type} : List (String × α) → String → Option α
  | [], _ => none
  | (k, v) :: rest, key => if k = key then some v else dget? rest key

/-- In-place update of the value stored at a key (`d[k] = v` when `k in d`). -/
def dset {α : Type} (d : List (String × α)) (key : String) (v : α) :
    List (String × α) :=
  d.map (fun p => if p.1 = key then (key, v) else p)

/-- Deletion of a key (`del d[k]`); Python dict keys are unique, so
removing every pair with the key is equivalent. -/
def ddel {α : Type} (d : List (String × α)) (key : String) :
    List (String × α) :=
  d.filter (fun p => p.1 ≠ key)

/-- Dict assignment `d[k] = v`: overwrite when present, append when fresh
(insertion order is preserved, as in Python dicts). -/
def dinsert {α : Type} (d : List (String × α)) (key : String) (v : α) :
    List (String × α) :=
  if (dget? d key).isSome then dset d key v else d ++ [(key, v)]

/-- Does the list start with the given pattern? (helper for Python's
substring operator `pat in s`). -/
def startsWithL : List Char → List Char → Bool
  | [], _ => true
  | _ :: _, [] => false
  | p :: ps, c :: cs => decide (p = c) && startsWithL ps cs

/-- Substring test on character lists (Python `pat in s` for strings). -/
def containsSub : List Char → List Char → Bool
  | [], pat => pat.isEmpty
  | c :: rest, pat => startsWithL pat (c :: rest) || containsSub rest pat

/-- Python's `pat in s` substring operator. -/
def strContains (s pat : String) : Bool :=
  containsSub s.toList pat.toList

/-- Python's `str.lower()`, character by character (the payloads here are
ASCII, where Python and Unicode lowering agree). -/
def strLower (s : String) : String :=
  ⟨s.data.map Char.toLower⟩

/-- Network/client metadata captured from the Flask `request` object. -/
structure RequestCtx where
  ip_address : String
  user_agent : String
deriving DecidableEq, Repr

/-- One stored session (the `session_data` dict built by
`SecurityService.create_session`, lines 68-77). -/
structure Session where
  session_id : String
  user_id : String
  permissions : List String
  created_at : Nat
  expires_at : Nat
  last_activity : Nat
  ip_address : String
  user_agent : String
deriving DecidableEq, Repr

/-- One audit record (the `event` dict built by
`SecurityService.log_security_event`, lines 110-116); `details` is the
free-form payload, modelled as a string-keyed association list. -/
structure AuditEvent where
  timestamp : Nat
  event_type : String
  details : List (String × String)
  ip_address : String
  user_agent : String
deriving DecidableEq, Repr

/-- The two `ValueError`s raised by `SecurityService.validate_session`:
"Invalid session" and "Session expired". -/
inductive SessionError where
  | invalid
  | expired
deriving DecidableEq, Repr

/-- Result of `SecurityService.detect_threats` (lines 139-143). -/
structure ThreatVerdict where
  threats_detected : List String
  risk_score : Nat
  action : String
deriving DecidableEq, Repr

/-- The `security_policies` dict set in `SecurityService.__init__`
(lines 29-35). -/
structure SecurityPolicies where
  password_min_length : Nat
  session_timeout : Nat
  max_login_attempts : Nat
  require_2fa : Bool
  encryption_algorithm : String
deriving DecidableEq, Repr

/-- Policy defaults from `SecurityService.__init__`. -/
def defaultPolicies : SecurityPolicies :=
  { password_min_length := 8
    session_timeout := 3600
    max_login_attempts := 5
    require_2fa := false
    encryption_algorithm := "AES-256" }

/-- The mutable state of a `SecurityService` instance: the `sessions`
dict, the `audit_log` list and the policy table. -/
structure SecurityService where
  sessions : List (String × Session)
  audit_log : List AuditEvent
  security_policies : SecurityPolicies
deriving DecidableEq, Repr

/-- A freshly constructed service (`SecurityService.__init__`). -/
def initService : SecurityService :=
  { sessions := []
    audit_log := []
    security_policies := defaultPolicies }

/-- `SecurityService.log_security_event` (lines 108-119): builds the event
record and appends it to `audit_log`. -/
def log_security_event (svc : SecurityService) (now : Nat)
    (event_type : String) (details : List (String × String))
    (ctx : RequestCtx) : SecurityService :=
  { svc with
    audit_log := svc.audit_log ++
      [{ timestamp := now
         event_type := event_type
         details := details
         ip_address := ctx.ip_address
         user_agent := ctx.user_agent }] }

/-- `SecurityService.create_session` (lines 65-82). `newId` is the token
from `generate_token` (an external random source); `permissions or
["read"]` makes both `None` and `[]` default to `["read"]`. -/
def create_session (svc : SecurityService) (now : Nat) (newId : String)
    (ctx : RequestCtx) (user_id : String)
    (permissions : Option (List String)) : Session × SecurityService :=
  let perms : List String :=
    match permissions with
    | none => ["read"]
    | some [] => ["read"]
    | some l => l
  let session_data : Session :=
    { session_id := newId
      user_id := user_id
      permissions := perms
      created_at := now
      expires_at := now + svc.security_policies.session_timeout
      last_activity := now
      ip_address := ctx.ip_address
      user_agent := ctx.user_agent }
  let svc1 := { svc with sessions := dinsert svc.sessions newId session_data }
  let svc2 := log_security_event svc1 now "session_created"
    [("user_id", user_id), ("session_id", newId)] ctx
  (session_data, svc2)

/-- `SecurityService.validate_session` (lines 84-98): unknown id raises
"Invalid session"; `now > expires_at` deletes the entry and raises
"Session expired"; otherwise `last_activity` is updated in place and the
session returned. -/
def validate_session (svc : SecurityService) (now : Nat) (session_id : String) :
    Except SessionError Session × SecurityService :=
  match dget? svc.sessions session_id with
  | none => (.error .invalid, svc)
  | some session =>
    if now > session.expires_at then
      (.error .expired, { svc with sessions := ddel svc.sessions session_id })
    else
      let session' := { session with last_activity := now }
      (.ok session',
        { svc with sessions := dset svc.sessions session_id session' })

/-- `SecurityService.detect_threats` (lines 121-143): three independent
signal checks accumulate `risk_score`, then the action thresholds are
applied. `request_data` is the serialised payload `str(request_data)`. -/
def detect_threats (request_data : String) : ThreatVerdict :=
  let threats : List String := []
  let risk_score : Nat := 0
  let lowered := strLower request_data
  let threats :=
    if strContains lowered "script" then threats ++ ["potential_xss"] else threats
  let risk_score :=
    if strContains lowered "script" then risk_score + 30 else risk_score
  let threats :=
    if strContains lowered "union" && strContains lowered "select" then
      threats ++ ["potential_sql_injection"] else threats
  let risk_score :=
    if strContains lowered "union" && strContains lowered "select" then
      risk_score + 50 else risk_score
  let threats :=
    if request_data.length > 10000 then threats ++ ["oversized_request"] else threats
  let risk_score :=
    if request_data.length > 10000 then risk_score + 20 else risk_score
  { threats_detected := threats
    risk_score := risk_score
    action :=
      if risk_score > 70 then "block"
      else if risk_score > 30 then "monitor"
      else "allow" }

/-- Outcome of the `/auth/login` route handler. -/
inductive LoginResult where
  | missing
  | success (session_id : String) (expires_at : Nat) (permissions : List String)
  | authFailed
deriving DecidableEq, Repr

/-- The JSON body posted to `/auth/login`. -/
structure LoginRequest where
  username : Option String
  password : Option String
  permissions : Option (List String)
deriving DecidableEq, Repr

/-- The `/auth/login` route handler `login` (lines 205-228): missing
fields give a 400; a password at least `password_min_length` long creates
a session (the secret is never compared against any stored credential);
otherwise a `login_failed` audit event is appended and a 401 returned. -/
def login (svc : SecurityService) (now : Nat) (newId : String)
    (ctx : RequestCtx) (data : LoginRequest) : LoginResult × SecurityService :=
  match data.username, data.password with
  | some username, some password =>
    if password.length ≥ svc.security_policies.password_min_length then
      let permissions := data.permissions.getD ["read", "write"]
      let (session, svc') :=
        create_session svc now newId ctx username (some permissions)
      (.success session.session_id session.expires_at session.permissions, svc')
    else
      (.authFailed,
        log_security_event svc now "login_failed"
          [("username", username), ("reason", "weak_password")] ctx)
  | _, _ => (.missing, svc)

/-- Outcome of the `/auth/logout` route handler: 200 success, or the 400
error body `\x7b"error": "Invalid session"\x7d`. -/
inductive LogoutResult where
  | success
  | invalidSession
deriving DecidableEq, Repr

/-- Does a `LogoutResult` carry an error body (HTTP 400)? -/
def logoutIsError : LogoutResult → Bool
  | .success => false
  | .invalidSession => true

/-- The `/auth/logout` route handler `logout` (lines 230-242): a present
session is deleted and `session_destroyed` logged; an absent id yields
the 400 "Invalid session" error response. -/
def logout (svc : SecurityService) (now : Nat) (ctx : RequestCtx)
    (session_id : String) : LogoutResult × SecurityService :=
  match dget? svc.sessions session_id with
  | some session =>
    let svc1 := { svc with sessions := ddel svc.sessions session_id }
    let svc2 := log_security_event svc1 now "session_destroyed"
      [("session_id", session_id), ("user_id", session.user_id)] ctx
    (.success, svc2)
  | none => (.invalidSession, svc)

/-- The `/security/threat-scan` route handler `threat_scan`
(lines 271-282): scores the payload, then unconditionally logs a
`threat_scan` audit event carrying the analysis. -/
def threat_scan (svc : SecurityService) (now : Nat) (ctx : RequestCtx)
    (payload : String) : ThreatVerdict × SecurityService :=
  let threat_analysis := detect_threats payload
  (threat_analysis,
    log_security_event svc now "threat_scan"
      [("risk_score", toString threat_analysis.risk_score),
       ("action", threat_analysis.action)] ctx)

/-- The `/audit/events` route handler `get_audit_events` (lines 294-309):
optional type filter, then the Python slice `events[-limit:]` (which for
`limit = 0` is `events[0:]`, the whole list). -/
def get_audit_events (svc : SecurityService) (limit : Nat)
    (event_type : Option String) : List AuditEvent :=
  let events := svc.audit_log
  let events :=
    match event_type with
    | some t => events.filter (fun e => e.event_type = t)
    | none => events
  if limit = 0 then events else events.drop (events.length - limit)

/-! ### Helper lemmas about the dict model -/

theorem dget?_ddel_self {α : Type} (d : List (String × α)) (k : String) :
    dget? (ddel d k) k = none := by
  induction d with
  | nil => rfl
  | cons p rest ih =>
    by_cases h : p.1 = k
    · simpa [ddel, List.filter_cons, h] using ih
    · simpa [ddel, List.filter_cons, h, dget?] using ih

theorem dget?_dset_of_present {α : Type} (d : List (String × α)) (k : String)
    (v w : α) (h : dget? d k = some v) : dget? (dset d k w) k = some w := by
  induction d with
  | nil => simp [dget?] at h
  | cons p rest ih =>
    obtain ⟨k', v'⟩ := p
    by_cases hk : k' = k
    · subst hk
      show dget? ((if k' = k' then (k', w) else (k', v')) :: dset rest k' w) k' =
        some w
      rw [if_pos rfl]
      simp [dget?]
    · simp only [dget?] at h
      rw [if_neg hk] at h
      show dget? ((if k' = k then (k, w) else (k', v')) :: dset rest k w) k =
        some w
      rw [if_neg hk]
      show (if k' = k then some v' else dget? (dset rest k w) k) = some w
      rw [if_neg hk]
      exact ih h

theorem dget?_append_single {α : Type} (d : List (String × α)) (k : String)
    (v : α) (h : dget? d k = none) : dget? (d ++ [(k, v)]) k = some v := by
  induction d with
  | nil => simp [dget?]
  | cons p rest ih =>
    by_cases hk : p.1 = k
    · simp [dget?, hk] at h
    · simp [dget?, hk] at h ⊢
      exact ih h

theorem dget?_dinsert_self {α : Type} (d : List (String × α)) (k : String)
    (v : α) : dget? (dinsert d k v) k = some v := by
  unfold dinsert
  cases h : dget? d k with
  | none => simp [h, dget?_append_single d k v h]
  | some w => simp [h, dget?_dset_of_present d k w v h]

/-- The session built by `create_session` is retrievable from the updated
store under the fresh token. -/
theorem create_session_stores (svc : SecurityService) (now : Nat)
    (newId : String) (ctx : RequestCtx) (uid : String)
    (p : Option (List String)) :
    dget? (create_session svc now newId ctx uid p).2.sessions newId =
      some (create_session svc now newId ctx uid p).1 := by
  unfold create_session log_security_event
  exact dget?_dinsert_self _ _ _

/-! ### Concrete fixtures used by witnesses and counterexamples -/

/-- Origin context as captured outside a request (`"unknown"`). -/
def ctx0 : RequestCtx := { ip_address := "unknown", user_agent := "unknown" }

/-- A session that expires at time 10. -/
def sess1 : Session :=
  { session_id := "t1", user_id := "alice", permissions := ["read"]
    created_at := 0, expires_at := 10, last_activity := 0
    ip_address := "unknown", user_agent := "unknown" }

/-- A session that expires at time 100. -/
def sess2 : Session :=
  { session_id := "t2", user_id := "bob", permissions := ["read", "write"]
    created_at := 0, expires_at := 100, last_activity := 0
    ip_address := "unknown", user_agent := "unknown" }

/-- A service holding one session expired at time 11 (`"t1"`) and one
still live at time 11 (`"t2"`), with an empty audit log. -/
def svcTwo : SecurityService :=
  { sessions := [("t1", sess1), ("t2", sess2)]
    audit_log := []
    security_policies := defaultPolicies }

/-- The serialised form `str(request_data)` of the Python payload
`\x7b"q": "<script>alert(1)</script>"\x7d` (Python `str` renders the dict
with single quotes). -/
def c4payload : String := "\x7b\x27q\x27: \x27<script>alert(1)</script>\x27\x7d"

/-- Helper: `logout` on an id with no stored session returns the 400
"Invalid session" error and leaves the service unchanged. -/
theorem logout_absent (svc : SecurityService) (now : Nat) (ctx : RequestCtx)
    (sid : String) (h : dget? svc.sessions sid = none) :
    logout svc now ctx sid = (.invalidSession, svc) := by
  unfold logout
  rw [h]

/-- C1: `validate` on an absent id fails SessionInvalid and changes
nothing; on a stored but expired session it deletes the entry and fails
SessionExpired, so a subsequent validate of the same id (at any time)
fails SessionInvalid; on a stored live session it updates `last_activity`
and returns the session. -/
theorem validate_session_cases (svc : SecurityService) (now now2 : Nat)
    (sidA sidB sidC : String) (sB sC : Session)
    (hA : dget? svc.sessions sidA = none)
    (hB : dget? svc.sessions sidB = some sB)
    (hBexp : now > sB.expires_at)
    (hC : dget? svc.sessions sidC = some sC)
    (hCexp : ¬ now > sC.expires_at) :
    validate_session svc now sidA = (.error .invalid, svc) ∧
    validate_session svc now sidB =
      (.error .expired, { svc with sessions := ddel svc.sessions sidB }) ∧
    (validate_session { svc with sessions := ddel svc.sessions sidB } now2 sidB).1 =
      .error .invalid ∧
    validate_session svc now sidC =
      (.ok { sC with last_activity := now },
       { svc with
          sessions := dset svc.sessions sidC { sC with last_activity := now } }) := by
  refine ⟨?_, ?_, ?_, ?_⟩
  · unfold validate_session
    rw [hA]
  · unfold validate_session
    rw [hB]
    dsimp only
    rw [if_pos hBexp]
  · unfold validate_session
    rw [dget?_ddel_self]
  · unfold validate_session
    rw [hC]
    dsimp only
    rw [if_neg hCexp]

/-- Witness for the C1 theorem at a concrete two-session store: "ghost"
is absent, "t1" is expired at time 11, "t2" is live at time 11. -/
theorem validate_session_cases_witness :
    validate_session svcTwo 11 "ghost" = (.error .invalid, svcTwo) ∧
    validate_session svcTwo 11 "t1" =
      (.error .expired, { svcTwo with sessions := ddel svcTwo.sessions "t1" }) ∧
    (validate_session { svcTwo with sessions := ddel svcTwo.sessions "t1" } 12 "t1").1 =
      .error .invalid ∧
    validate_session svcTwo 11 "t2" =
      (.ok { sess2 with last_activity := 11 },
       { svcTwo with
          sessions := dset svcTwo.sessions "t2" { sess2 with last_activity := 11 } }) :=
  validate_session_cases svcTwo 11 12 "ghost" "t1" "t2" sess1 sess2
    (by decide) (by decide) (by decide) (by decide) (by decide)

/-- C5: a successful `validate` changes only the session's
`last_activity` field: the returned and re-stored session is exactly `s`
with `last_activity := now`, and its `expires_at`, `session_id`,
`user_id`, `permissions`, `created_at` and origin context all equal those
of `s` — the hard expiry deadline is never extended. -/
theorem validate_session_frame (svc : SecurityService) (now : Nat)
    (sid : String) (s : Session)
    (h : dget? svc.sessions sid = some s)
    (hexp : ¬ now > s.expires_at) :
    (validate_session svc now sid).1 = .ok { s with last_activity := now } ∧
    dget? (validate_session svc now sid).2.sessions sid =
      some { s with last_activity := now } ∧
    ({ s with last_activity := now }).expires_at = s.expires_at ∧
    ({ s with last_activity := now }).session_id = s.session_id ∧
    ({ s with last_activity := now }).user_id = s.user_id ∧
    ({ s with last_activity := now }).permissions = s.permissions ∧
    ({ s with last_activity := now }).created_at = s.created_at ∧
    ({ s with last_activity := now }).ip_address = s.ip_address ∧
    ({ s with last_activity := now }).user_agent = s.user_agent := by
  unfold validate_session
  rw [h]
  dsimp only
  rw [if_neg hexp]
  exact ⟨rfl, dget?_dset_of_present _ _ _ _ h, rfl, rfl, rfl, rfl, rfl, rfl, rfl⟩

/-- Witness for the C5 theorem: refreshing the live session "t2" of the
concrete store at time 11. -/
theorem validate_session_frame_witness :
    (validate_session svcTwo 11 "t2").1 = .ok { sess2 with last_activity := 11 } ∧
    dget? (validate_session svcTwo 11 "t2").2.sessions "t2" =
      some { sess2 with last_activity := 11 } ∧
    ({ sess2 with last_activity := 11 }).expires_at = sess2.expires_at ∧
    ({ sess2 with last_activity := 11 }).session_id = sess2.session_id ∧
    ({ sess2 with last_activity := 11 }).user_id = sess2.user_id ∧
    ({ sess2 with last_activity := 11 }).permissions = sess2.permissions ∧
    ({ sess2 with last_activity := 11 }).created_at = sess2.created_at ∧
    ({ sess2 with last_activity := 11 }).ip_address = sess2.ip_address ∧
    ({ sess2 with last_activity := 11 }).user_agent = sess2.user_agent :=
  validate_session_frame svcTwo 11 "t2" sess2 (by decide) (by decide)

/-- C6 counterexample: logout on an id with no stored session does not
return a boolean false — it returns the 400 "Invalid session" error
response (an error body), refuting "returns false rather than raising or
reporting an error". -/
theorem logout_absent_reports_error :
    logout initService 0 ctx0 "ghost" = (.invalidSession, initService) ∧
    logoutIsError (logout initService 0 ctx0 "ghost").1 = true := by
  decide

/-- C6 amended: logout never raises: on an absent id — including a second
call immediately after a successful logout of the same id — it leaves the
service unchanged and returns the 400 Invalid-session error response
(rather than a boolean false); on a present id it removes the session,
appends a session_destroyed audit event and returns success. -/
theorem logout_cases (svc : SecurityService) (now now2 : Nat)
    (ctx ctx2 : RequestCtx) (sidA sidB : String) (sB : Session)
    (hA : dget? svc.sessions sidA = none)
    (hB : dget? svc.sessions sidB = some sB) :
    logout svc now ctx sidA = (.invalidSession, svc) ∧
    (logout svc now ctx sidB).1 = .success ∧
    dget? (logout svc now ctx sidB).2.sessions sidB = none ∧
    (logout svc now ctx sidB).2.audit_log = svc.audit_log ++
      [{ timestamp := now
         event_type := "session_destroyed"
         details := [("session_id", sidB), ("user_id", sB.user_id)]
         ip_address := ctx.ip_address
         user_agent := ctx.user_agent }] ∧
    logout (logout svc now ctx sidB).2 now2 ctx2 sidB =
      (.invalidSession, (logout svc now ctx sidB).2) := by
  have habs : dget? (logout svc now ctx sidB).2.sessions sidB = none := by
    unfold logout
    rw [hB]
    exact dget?_ddel_self _ _
  refine ⟨logout_absent _ _ _ _ hA, ?_, habs, ?_, logout_absent _ _ _ _ habs⟩
  · unfold logout
    rw [hB]
  · unfold logout
    rw [hB]
    rfl

/-- Witness for the C6 amended theorem: "ghost" is absent and "t2" is
present in the concrete store. -/
theorem logout_cases_witness :
    logout svcTwo 11 ctx0 "ghost" = (.invalidSession, svcTwo) ∧
    (logout svcTwo 11 ctx0 "t2").1 = .success ∧
    dget? (logout svcTwo 11 ctx0 "t2").2.sessions "t2" = none ∧
    (logout svcTwo 11 ctx0 "t2").2.audit_log = svcTwo.audit_log ++
      [{ timestamp := 11
         event_type := "session_destroyed"
         details := [("session_id", "t2"), ("user_id", sess2.user_id)]
         ip_address := ctx0.ip_address
         user_agent := ctx0.user_agent }] ∧
    logout (logout svcTwo 11 ctx0 "t2").2 12 ctx0 "t2" =
      (.invalidSession, (logout svcTwo 11 ctx0 "t2").2) :=
  logout_cases svcTwo 11 12 ctx0 ctx0 "ghost" "t2" sess2 (by decide) (by decide)

/-- C3: the risk score is the sum of the weights of the independently
triggered signals — 30 for a script indicator, 50 for the co-occurrence
of "union" and "select", 20 for a serialised length above 10000 — and the
action is block for a score above 70, monitor for a score above 30, and
allow otherwise. -/
theorem detect_threats_score_action (s : String) :
    (detect_threats s).risk_score =
      (if strContains (strLower s) "script" then 30 else 0) +
      (if strContains (strLower s) "union" && strContains (strLower s) "select"
        then 50 else 0) +
      (if s.length > 10000 then 20 else 0) ∧
    (detect_threats s).action =
      (if (detect_threats s).risk_score > 70 then "block"
       else if (detect_threats s).risk_score > 30 then "monitor"
       else "allow") := by
  unfold detect_threats
  cases h1 : strContains (strLower s) "script" <;>
    cases h2 : strContains (strLower s) "union" && strContains (strLower s) "select" <;>
    by_cases h3 : s.length > 10000 <;>
    simp [h1, h2, h3]

/-- C4 counterexample: the payload `\x7b"q": "<script>alert(1)</script>"\x7d`
scores exactly 30, and the monitor threshold is strict (`risk_score > 30`),
so the action is "allow", not "monitor" as the claim states. -/
theorem c4payload_action_not_monitor :
    (detect_threats c4payload).action = "allow" ∧
    (detect_threats c4payload).action ≠ "monitor" := by
  decide

/-- C4 amended: scoring that payload under the default policy yields a
verdict that includes the script-indicator signal and has risk_score 30
(hence ≥ 30), but its action is "allow", because "monitor" requires a
risk score strictly greater than 30. -/
theorem c4payload_verdict :
    detect_threats c4payload =
      { threats_detected := ["potential_xss"], risk_score := 30, action := "allow" } ∧
    "potential_xss" ∈ (detect_threats c4payload).threats_detected ∧
    (detect_threats c4payload).risk_score ≥ 30 := by
  decide

/-- C10: under the default weights and thresholds the action is "block"
exactly when both the script-indicator signal and the SQL-injection
signal fire; without both, the score can reach at most 70, which does not
exceed the block threshold. -/
theorem detect_threats_block_iff (s : String) :
    (detect_threats s).action = "block" ↔
      (strContains (strLower s) "script" = true ∧
       (strContains (strLower s) "union" && strContains (strLower s) "select") = true) := by
  unfold detect_threats
  cases h1 : strContains (strLower s) "script" <;>
    cases h2 : strContains (strLower s) "union" && strContains (strLower s) "select" <;>
    by_cases h3 : s.length > 10000 <;>
    simp [h1, h2, h3]

/-- C2 counterexample: a validate that fails with SessionExpired appends
no audit event — on a store whose audit log is empty, the expired entry
is deleted, the error returned, and the audit log is still empty. -/
theorem validate_expired_appends_no_audit :
    (validate_session svcTwo 11 "t1").1 = .error .expired ∧
    (validate_session svcTwo 11 "t1").2.audit_log = [] :=
  ⟨rfl, rfl⟩

/-- C2 amended: a failed login appends a login_failed audit event before
the 401 error is returned, and the threat-scan route appends a
threat_scan audit event for every verdict (blocked ones included); but a
validate that fails with SessionExpired appends no audit event — the
entry is deleted and the error returned with the audit log unchanged. -/
theorem security_failures_audit (svc : SecurityService) (now : Nat)
    (newId : String) (ctx : RequestCtx) (username password : String)
    (perms : Option (List String)) (sid : String) (s : Session)
    (payload : String)
    (hpw : password.length < svc.security_policies.password_min_length)
    (hs : dget? svc.sessions sid = some s)
    (hexp : now > s.expires_at) :
    (login svc now newId ctx ⟨some username, some password, perms⟩).1 =
      .authFailed ∧
    (login svc now newId ctx ⟨some username, some password, perms⟩).2.audit_log =
      svc.audit_log ++
        [{ timestamp := now
           event_type := "login_failed"
           details := [("username", username), ("reason", "weak_password")]
           ip_address := ctx.ip_address
           user_agent := ctx.user_agent }] ∧
    (validate_session svc now sid).1 = .error .expired ∧
    (validate_session svc now sid).2.audit_log = svc.audit_log ∧
    (threat_scan svc now ctx payload).2.audit_log =
      svc.audit_log ++
        [{ timestamp := now
           event_type := "threat_scan"
           details := [("risk_score", toString (detect_threats payload).risk_score),
                       ("action", (detect_threats payload).action)]
           ip_address := ctx.ip_address
           user_agent := ctx.user_agent }] := by
  have hnotge : ¬ password.length ≥ svc.security_policies.password_min_length :=
    not_le.mpr hpw
  refine ⟨?_, ?_, ?_, ?_, rfl⟩
  · unfold login
    dsimp only
    rw [if_neg hnotge]
  · unfold login
    dsimp only
    rw [if_neg hnotge]
    rfl
  · unfold validate_session
    rw [hs]
    dsimp only
    rw [if_pos hexp]
  · unfold validate_session
    rw [hs]
    dsimp only
    rw [if_pos hexp]

/-- Witness for the C2 amended theorem: "short" (length 5) is below the
default minimum of 8, and "t1" is expired at time 11 in the concrete
store. -/
theorem security_failures_audit_witness :
    (login svcTwo 11 "tok" ctx0 ⟨some "alice", some "short", none⟩).1 =
      .authFailed ∧
    (login svcTwo 11 "tok" ctx0 ⟨some "alice", some "short", none⟩).2.audit_log =
      svcTwo.audit_log ++
        [{ timestamp := 11
           event_type := "login_failed"
           details := [("username", "alice"), ("reason", "weak_password")]
           ip_address := ctx0.ip_address
           user_agent := ctx0.user_agent }] ∧
    (validate_session svcTwo 11 "t1").1 = .error .expired ∧
    (validate_session svcTwo 11 "t1").2.audit_log = svcTwo.audit_log ∧
    (threat_scan svcTwo 11 ctx0 "x").2.audit_log =
      svcTwo.audit_log ++
        [{ timestamp := 11
           event_type := "threat_scan"
           details := [("risk_score", toString (detect_threats "x").risk_score),
                       ("action", (detect_threats "x").action)]
           ip_address := ctx0.ip_address
           user_agent := ctx0.user_agent }] :=
  security_failures_audit svcTwo 11 "tok" ctx0 "alice" "short" none "t1" sess1 "x"
    (by decide) (by decide) (by decide)

/-- One call to `log_security_event`, as the audit appenders see it: the
timestamp, event type, details and origin of one appended event. -/
structure AuditRequest where
  now : Nat
  event_type : String
  details : List (String × String)
  ctx : RequestCtx

/-- The audit record that `log_security_event` builds from one request. -/
def mkEvent (r : AuditRequest) : AuditEvent :=
  { timestamp := r.now
    event_type := r.event_type
    details := r.details
    ip_address := r.ctx.ip_address
    user_agent := r.ctx.user_agent }

/-- N successive calls to `log_security_event`, one per request. -/
def appendEvents (svc : SecurityService) : List AuditRequest → SecurityService
  | [] => svc
  | r :: rs =>
    appendEvents (log_security_event svc r.now r.event_type r.details r.ctx) rs

/-- Appending events only ever extends the audit log at the tail. -/
theorem appendEvents_audit_log (rs : List AuditRequest) (svc : SecurityService) :
    (appendEvents svc rs).audit_log = svc.audit_log ++ rs.map mkEvent := by
  induction rs generalizing svc with
  | nil => simp [appendEvents]
  | cons r rs ih =>
    rw [appendEvents, ih]
    simp [log_security_event, mkEvent]

/-- C7: starting from a fresh service, after exactly N events have been
appended, querying with limit N and no type filter returns exactly those
N events in append order. -/
theorem listAuditEvents_round_trip (rs : List AuditRequest) :
    get_audit_events (appendEvents initService rs) rs.length none =
      rs.map mkEvent := by
  have hlog : (appendEvents initService rs).audit_log = rs.map mkEvent := by
    rw [appendEvents_audit_log]
    simp [initService]
  unfold get_audit_events
  rw [hlog]
  rcases rs with _ | ⟨r, rs⟩
  · simp
  · simp

/-- C8: every session stored by create_session has a non-empty
permissions list: an omitted (None) or empty permissions argument
defaults to ["read"] rather than being stored empty or rejected, and the
created session is stored under the fresh token. -/
theorem create_session_permissions (svc : SecurityService) (now : Nat)
    (newId : String) (ctx : RequestCtx) (uid : String)
    (p : Option (List String)) :
    ((create_session svc now newId ctx uid p).1.permissions).isEmpty = false ∧
    (create_session svc now newId ctx uid none).1.permissions = ["read"] ∧
    (create_session svc now newId ctx uid (some [])).1.permissions = ["read"] ∧
    dget? (create_session svc now newId ctx uid p).2.sessions newId =
      some (create_session svc now newId ctx uid p).1 := by
  refine ⟨?_, rfl, rfl, create_session_stores svc now newId ctx uid p⟩
  rcases p with _ | ⟨_ | ⟨a, l⟩⟩ <;> rfl

/-- C9: any secret at least as long as the policy minimum authenticates
any principal: login succeeds and stores a session for the given
username under the fresh token, and the outcome depends on the secret
only through its length — no stored credential record is ever
consulted. -/
theorem login_accepts_any_long_secret (svc : SecurityService) (now : Nat)
    (newId : String) (ctx : RequestCtx) (username password : String)
    (perms : Option (List String))
    (h : password.length ≥ svc.security_policies.password_min_length) :
    (∃ session svc2,
      login svc now newId ctx ⟨some username, some password, perms⟩ =
        (.success session.session_id session.expires_at session.permissions,
          svc2) ∧
      session.session_id = newId ∧
      session.user_id = username ∧
      dget? svc2.sessions newId = some session) ∧
    (∀ password2 : String, password2.length = password.length →
      login svc now newId ctx ⟨some username, some password2, perms⟩ =
      login svc now newId ctx ⟨some username, some password, perms⟩) := by
  constructor
  · refine
      ⟨(create_session svc now newId ctx username
          (some (perms.getD ["read", "write"]))).1,
       (create_session svc now newId ctx username
          (some (perms.getD ["read", "write"]))).2,
       ?_, rfl, rfl, create_session_stores _ _ _ _ _ _⟩
    unfold login
    dsimp only
    rw [if_pos h]
  · intro password2 h2
    unfold login
    dsimp only
    rw [h2]

/-- Witness for the C9 theorem: the 8-character secret "password"
authenticates "alice" against the default minimum of 8, and the
equally long secret "hunter22" produces the identical outcome. -/
theorem login_accepts_any_long_secret_witness :
    (∃ session svc2,
      login initService 0 "tok" ctx0 ⟨some "alice", some "password", none⟩ =
        (.success session.session_id session.expires_at session.permissions,
          svc2) ∧
      session.session_id = "tok" ∧
      session.user_id = "alice" ∧
      dget? svc2.sessions "tok" = some session) ∧
    login initService 0 "tok" ctx0 ⟨some "alice", some "hunter22", none⟩ =
      login initService 0 "tok" ctx0 ⟨some "alice", some "password", none⟩ := by
  have h :=
    login_accepts_any_long_secret initService 0 "tok" ctx0 "alice" "password"
      none (by decide)
  exact ⟨h.1, h.2 "hunter22" (by decide)⟩
